import Mathlib

/-!
# Livecaption — caption reconciliation core, shallow embedding

Shallow embedding of the live-caption reconciliation logic of
`src/components/viewer-interface.tsx` (the viewer caption stream merger,
activity/idle monitor, translation pipeline with cache and cancellation)
together with the surrounding data model (the `captions` table schema in
`apply-all-migrations.sql`).

Conventions:
* Times are in milliseconds, as `Nat` (JavaScript `Date.now()`).
* React state updates are modelled by explicit state passing; each realtime
  handler becomes a function from state (plus the handler payload and the
  current time) to state.
-/

/-! ## Data model and caption stream merger -/

/-- A finalized transcript row of the `captions` table
(`apply-all-migrations.sql`: id, text, timestamp, sequence_number, is_final;
`language_code` is the optional detection column read by the viewer). -/
structure Caption where
  id : String
  text : String
  timestamp : String
  sequence_number : Nat
  is_final : Bool
  language_code : Option String
deriving DecidableEq, Repr

/-- The merger-relevant React state of `ViewerInterface`
(`viewer-interface.tsx` lines 82-106): the ordered caption list, the current
partial text, the detected source language and `lastActivityAtRef`. -/
structure ViewerState where
  captions : List Caption
  partialText : String
  sourceLanguage : String
  lastActivityAt : Nat
deriving DecidableEq, Repr

/-- Initial viewer state (the `useState` initializers at lines 82-90; the
`lastActivityAtRef` starts at the mount time, passed in as `now`). -/
def initViewerState (now : Nat) : ViewerState :=
  { captions := [], partialText := "", sourceLanguage := "en", lastActivityAt := now }

/-- The `postgres_changes` INSERT handler (`viewer-interface.tsx` lines
254-271): bump `lastActivityAtRef`, adopt `language_code` when present,
clear the partial text, then append the caption unless its id is already
present (the dedup `prev.some ((c) => c.id === payload.new.id)`). -/
def ingestFinal (s : ViewerState) (c : Caption) (now : Nat) : ViewerState :=
  { s with
    lastActivityAt := now
    sourceLanguage := match c.language_code with
      | some lc => lc
      | none => s.sourceLanguage
    partialText := ""
    captions := if s.captions.any (fun p => p.id == c.id) then s.captions
      else s.captions ++ [c] }

/-- The `broadcast` `partial_transcript` handler (`viewer-interface.tsx`
lines 287-297): bump `lastActivityAtRef` (unconditionally, before any check
of the payload text), adopt `language_code` when present, replace the
partial text wholesale. -/
def ingestPartial (s : ViewerState) (text : String) (language_code : Option String)
    (now : Nat) : ViewerState :=
  { s with
    lastActivityAt := now
    sourceLanguage := match language_code with
      | some lc => lc
      | none => s.sourceLanguage
    partialText := text }

/-- The read-only snapshot handed to the presentation layer: the ordered
caption list and the current partial (`captions` / `partialText` as rendered
at lines 1272-1331; the render maps over the list in stored order). -/
def currentView (s : ViewerState) : List Caption × String :=
  (s.captions, s.partialText)

/-- Returns `true` iff the list is sorted ascending by `sequence_number`
(adjacent captions nondecreasing). -/
def sortedBySeq : List Caption → Bool
  | [] => true
  | [_] => true
  | a :: b :: rest => decide (a.sequence_number ≤ b.sequence_number) && sortedBySeq (b :: rest)

/-- Concrete caption with sequence number 1 (for counterexamples). -/
def capSeq1 : Caption :=
  { id := "cap-b", text := "world", timestamp := "t1", sequence_number := 1,
    is_final := true, language_code := none }

/-- Concrete caption with sequence number 0 (for counterexamples). -/
def capSeq0 : Caption :=
  { id := "cap-a", text := "hello", timestamp := "t0", sequence_number := 0,
    is_final := true, language_code := none }

/-- Redelivery of the id of `capSeq0` with different text (used by the C3
witness). -/
def capSeq0Redelivered : Caption :=
  { capSeq0 with text := "hello, redelivered with different text" }

/-- Duplicate delivery used by the C9 witness. -/
def capSeq1Redelivered : Caption :=
  { capSeq1 with text := "world, again" }

/-! ## Activity/idle monitor (`viewer-interface.tsx` lines 105-111, 308-336) -/

/-- Constant `IDLE_THRESHOLD_MS` (line 110). -/
def IDLE_THRESHOLD_MS : Nat := 15000

/-- Constant `IDLE_MESSAGE_DURATION_MS` (line 111). -/
def IDLE_MESSAGE_DURATION_MS : Nat := 5000

/-- The 1-second idle tick (lines 309-315): `showIdleMessage` is set to
`elapsed >= IDLE_THRESHOLD_MS`, as a function of the elapsed time since
`lastActivityAtRef`. -/
def showIdleMessage (elapsed : Nat) : Bool :=
  decide (IDLE_THRESHOLD_MS ≤ elapsed)

/-- The idle-message visibility effect (lines 318-336): when
`showIdleMessage` turns true the notice becomes visible and a
`IDLE_MESSAGE_DURATION_MS` timeout hides it; when `showIdleMessage` is false
it is hidden.  In continuous time `showIdleMessage` turns true exactly at
elapsed = `IDLE_THRESHOLD_MS`, so the notice is visible exactly on the band
`[IDLE_THRESHOLD_MS, IDLE_THRESHOLD_MS + IDLE_MESSAGE_DURATION_MS)`. -/
def idleMessageVisible (elapsed : Nat) : Bool :=
  showIdleMessage elapsed && decide (elapsed < IDLE_THRESHOLD_MS + IDLE_MESSAGE_DURATION_MS)

/-- The three-valued idle indicator derived from the two flags:
no notice requested / notice visible / notice timed out (blank display). -/
inductive IdleBand
  | ACTIVE
  | IDLE_RECENT
  | IDLE_QUIET
deriving DecidableEq, Repr

/-- Idle band derived from elapsed time via the two code flags. -/
def idleBand (elapsed : Nat) : IdleBand :=
  if showIdleMessage elapsed then
    if idleMessageVisible elapsed then .IDLE_RECENT else .IDLE_QUIET
  else .ACTIVE

/-- Elapsed time at `now` since the last activity recorded in the state
(`Date.now() - lastActivityAtRef.current`, line 311). -/
def elapsedAt (s : ViewerState) (now : Nat) : Nat :=
  now - s.lastActivityAt

/-! ## Debounced partial translation (`viewer-interface.tsx` lines 745-769,
and the structurally identical API-provider effect at lines 637-655)

The effect re-runs whenever `partialText` changes; its cleanup
(`clearTimeout`) cancels the previously scheduled timer, and its body either
clears the translated partial (guard failed or empty text) or schedules the
translation of the text it captured, 500 ms later. -/

/-- The 500 ms debounce window (lines 652 and 766). -/
def PARTIAL_DEBOUNCE_MS : Nat := 500

/-- A scheduled `setTimeout`: absolute fire time and the partial text
captured by the effect closure. -/
structure DebounceTimer where
  fireAt : Nat
  text : String
deriving DecidableEq, Repr

/-- State of the debounced partial-translation effect: the pending timer (if
any), the list of texts for which a translation call has actually fired (in
order), and `translatedPartialText`. -/
structure DebounceState where
  pending : Option DebounceTimer
  calls : List String
  translatedPartialText : String
deriving DecidableEq, Repr

/-- One effect re-run for a new partial text at time `now` (cleanup plus
body).  `active` collapses the configuration guard (provider matches, a
translator handle exists, target is not "none"); the text guard
(`!partialText`) is explicit.  Cleanup always clears the old timer; when the
guard passes a fresh timer is scheduled for `now + PARTIAL_DEBOUNCE_MS`,
otherwise `setTranslatedPartialText("")` runs and nothing is scheduled. -/
def partialUpdate (s : DebounceState) (active : Bool) (text : String) (now : Nat) :
    DebounceState :=
  if active && !(text == "") then
    { s with pending := some ⟨now + PARTIAL_DEBOUNCE_MS, text⟩ }
  else
    { s with pending := none, translatedPartialText := "" }

/-- The event loop reaching time `now`: a pending timer whose fire time has
arrived fires — the translation call happens for the captured text and the
result is stored — otherwise nothing happens.  `tr` is the translation
capability (`translator.translate`). -/
def fireTimer (s : DebounceState) (now : Nat) (tr : String → String) : DebounceState :=
  match s.pending with
  | some t =>
      if t.fireAt ≤ now then
        { pending := none, calls := s.calls ++ [t.text], translatedPartialText := tr t.text }
      else s
  | none => s

/-- Timed events interleaving partial updates with event-loop timer checks. -/
inductive DEvent
  | update (text : String)
  | timerTick
deriving DecidableEq, Repr

/-- Run a timestamped event list through the effect and the event loop. -/
def runT (tr : String → String) (s : DebounceState) : List (Nat × DEvent) → DebounceState
  | [] => s
  | (t, .update txt) :: rest => runT tr (partialUpdate s true txt t) rest
  | (t, .timerTick) :: rest => runT tr (fireTimer s t tr) rest

/-- A burst trace relative to the fire deadline `ft` of the currently
pending timer: every event happens strictly before the deadline that is
pending when it occurs (for updates this is exactly "closer together than
the 500 ms window"), and every update carries nonempty text. -/
def burstTrace : Nat → List (Nat × DEvent) → Bool
  | _, [] => true
  | ft, (t, .timerTick) :: rest => decide (t < ft) && burstTrace ft rest
  | ft, (t, .update x) :: rest =>
      decide (t < ft) && !(x == "") && burstTrace (t + PARTIAL_DEBOUNCE_MS) rest

/-- The timer (deadline, text) left pending after a burst trace. -/
def finalTimer (ft : Nat) (x : String) : List (Nat × DEvent) → Nat × String
  | [] => (ft, x)
  | (_, .timerTick) :: rest => finalTimer ft x rest
  | (t, .update y) :: rest => finalTimer (t + PARTIAL_DEBOUNCE_MS) y rest

/-- Burst text "a" (used by the C7 and C8 witnesses). -/
def txtA : String := "a"

/-- Burst text "ab" (used by the C8 witness). -/
def txtAB : String := "ab"

/-- Burst text "abc" (used by the C8 witness). -/
def txtABC : String := "abc"

/-- Scenario C events after the first update: updates 100 ms apart with an
event-loop check in between (used by the C8 witness). -/
def scenarioCEvents : List (Nat × DEvent) :=
  [(100, .update txtAB), (150, .timerTick), (200, .update txtABC)]

/-- A debounce state with nothing pending and no calls fired (used by the
C8 witness). -/
def emptyDebounce : DebounceState :=
  { pending := none, calls := [], translatedPartialText := "" }

/-- A concrete stand-in translation capability (used by the C8 witness). -/
def frSuffix : String → String :=
  fun txt => txt ++ "-fr"

/-! ## Translation pipeline: cache invalidation and cancellation
(`viewer-interface.tsx` lines 445-602, 706-742)

The discipline of both providers, as one transition system:

* A configuration switch (any change of `translationProvider` or
  `targetLanguage`) re-runs the provider effects.  The cleanup of the
  previous run aborts its `AbortController` and destroys the translator
  handle (lines 550-557; the API path flips its `cancelled` flag, lines
  599-601).  We model the abort/destroy pair as a generation counter: each
  switch bumps the generation, and a request is stale iff its generation is
  no longer current.

* What the new effect body does to `translatedCaptions` depends on the
  provider: the Chrome body clears it synchronously
  (`setTranslatedCaptions(new Map())`, line 463), as does the API effect
  when it is leaving the active-API configuration (target "none", lines
  563-567).  But the API body for a non-"none" target (lines 571-598)
  clears only the translated partial and the error (lines 574-575) and KEEPS
  the old map: it starts a sequential full retranslation over the caption
  snapshot it captured and replaces the map wholesale only at completion
  (`setTranslatedCaptions(newTranslations)`, line 589), guarded by
  `cancelled`.  The model therefore keeps the cache across an API
  non-"none" switch and records the started run as a bulk job, resolved by
  a later `bulkComplete` event.  (The API-unavailable branch, which also
  clears, is not modelled: the claims concern a working capability.)

* A pending `translate` promise or bulk run commits its result only when it
  still belongs to the current generation: a destroyed translator rejects
  its pending operations with `AbortError`, which the handlers catch and
  drop (lines 671, 736, 762), and the handlers additionally check
  `translatorAbortRef.current?.signal.aborted` / `cancelled` before any
  `setState` (lines 580-584, 589, 621, 729, 759). -/

/-- An in-flight translation request: the generation and the
(provider, target) configuration under which it was issued — the produced
text will be in `issueTarget` — plus the caption it is for. -/
structure TransReq where
  gen : Nat
  issueProvider : String
  issueTarget : String
  capId : String
  sourceText : String
deriving DecidableEq, Repr

/-- A cached translation (a `translatedCaptions` entry): caption id,
translated text, and the (provider, target) configuration the text was
produced under (ghost data used to state staleness). -/
structure CacheEntry where
  capId : String
  translated : String
  producedForProvider : String
  producedForTarget : String
deriving DecidableEq, Repr

/-- A started API full-retranslation run (`run()`, lines 573-598): the
generation and (provider, target) configuration it was started under, and
the (id, text) caption snapshot its closure iterates. -/
structure BulkJob where
  gen : Nat
  issueProvider : String
  issueTarget : String
  items : List (String × String)
deriving DecidableEq, Repr

/-- The cancellation-relevant pipeline state. -/
structure TransState where
  gen : Nat
  provider : String
  target : String
  cache : List CacheEntry
  translatedPartialText : String
  pending : List TransReq
  jobs : List BulkJob
deriving DecidableEq, Repr

/-- The on-device provider tag. -/
def chromeName : String := "chrome"

/-- The remote-API provider tag. -/
def apiName : String := "api"

/-- Pipeline events: a configuration switch (`setTarget` / `setProvider`,
i.e. an effect re-run with new config; the snapshot is the caption list the
re-run closes over), issuing a single translation request under the current
configuration, a pending request settling, and an API full-retranslation
run finishing. -/
inductive TransEvent
  | configSwitch (newProvider newTarget : String) (snapshot : List (String × String))
  | startRequest (capId sourceText : String)
  | resolve (r : TransReq)
  | bulkComplete (j : BulkJob)
deriving DecidableEq, Repr

/-- One pipeline transition.  `tr target text` is the result of the
translation capability for `text` under a given target language.

A switch clears the translated partial in every case (lines 464, 565, 575)
but clears the cache only on the Chrome path (line 463) or when the target
becomes "none" (line 564); an API switch to a non-"none" target keeps the
old map and starts a bulk retranslation job over the snapshot.  A resolving
request or finishing bulk run commits to the cache only when its generation
is still current (the `AbortError` / aborted-signal / `cancelled` checks);
a committing bulk run replaces the map wholesale (line 589). -/
def transStep (tr : String → String → String) (s : TransState) :
    TransEvent → TransState
  | .configSwitch p t snapshot =>
      { gen := s.gen + 1, provider := p, target := t,
        cache := if p == chromeName || t == "none" then [] else s.cache,
        translatedPartialText := "",
        pending := s.pending,
        jobs := if p == chromeName || t == "none" then s.jobs
          else ⟨s.gen + 1, p, t, snapshot⟩ :: s.jobs }
  | .startRequest capId sourceText =>
      { s with pending := ⟨s.gen, s.provider, s.target, capId, sourceText⟩ :: s.pending }
  | .resolve r =>
      if r ∈ s.pending then
        if r.gen = s.gen then
          { s with pending := s.pending.erase r,
                   cache := ⟨r.capId, tr r.issueTarget r.sourceText,
                     r.issueProvider, r.issueTarget⟩ :: s.cache }
        else { s with pending := s.pending.erase r }
      else s
  | .bulkComplete j =>
      if j ∈ s.jobs then
        if j.gen = s.gen then
          { s with jobs := s.jobs.erase j,
                   cache := j.items.map (fun it =>
                     ⟨it.1, tr j.issueTarget it.2, j.issueProvider, j.issueTarget⟩) }
        else { s with jobs := s.jobs.erase j }
      else s

/-- Initial pipeline state (`targetLanguage` starts "none", provider
"chrome", empty caches, nothing in flight). -/
def initTransState : TransState :=
  { gen := 0, provider := chromeName, target := "none", cache := [],
    translatedPartialText := "", pending := [], jobs := [] }

/-- Run the pipeline over an event list. -/
def transRun (tr : String → String → String) (s : TransState) :
    List TransEvent → TransState
  | [] => s
  | e :: rest => transRun tr (transStep tr s e) rest

/-- Every cached translation was produced under the currently selected
(provider, target) configuration. -/
def cacheFresh (s : TransState) : Bool :=
  s.cache.all (fun e => e.producedForProvider == s.provider &&
    e.producedForTarget == s.target)

/-- Every pending request has a generation at most the current one, and a
request still at the current generation was issued under the current
configuration. -/
def pendingOk (s : TransState) : Bool :=
  s.pending.all (fun r => decide (r.gen ≤ s.gen) &&
    (!(r.gen == s.gen) || (r.issueProvider == s.provider && r.issueTarget == s.target)))

/-- Every started bulk run has a generation at most the current one, and a
run still at the current generation was started under the current
configuration. -/
def jobsOk (s : TransState) : Bool :=
  s.jobs.all (fun j => decide (j.gen ≤ s.gen) &&
    (!(j.gen == s.gen) || (j.issueProvider == s.provider && j.issueTarget == s.target)))

/-- True for every event except a switch to a provider other than
"chrome". -/
def chromeSwitchOnly : TransEvent → Bool
  | .configSwitch p _ _ => p == chromeName
  | _ => true

/-- Every configuration switch in the list selects the Chrome (on-device)
provider — the scenario of the cache-invalidation property. -/
def chromeOnlySwitches (evs : List TransEvent) : Bool :=
  evs.all chromeSwitchOnly

/-- A slow request issued under generation 0 for target "fr"
(used by the C6 witness). -/
def slowFrRequest : TransReq :=
  { gen := 0, issueProvider := "chrome", issueTarget := "fr",
    capId := "cap-a", sourceText := "hello" }

/-- The state after switching to "de" while `slowFrRequest` is in flight
(used by the C6 witness). -/
def afterSwitchToDe : TransState :=
  { gen := 1, provider := "chrome", target := "de", cache := [],
    translatedPartialText := "", pending := [slowFrRequest], jobs := [] }

/-- A concrete stand-in translation capability taking the target language
(used by the C6 and C5 witnesses). -/
def tagTarget : String → String → String :=
  fun t txt => txt ++ "-" ++ t

/-- A cached Spanish translation of `capSeq0` (used by the C5
counterexample). -/
def esEntry : CacheEntry :=
  { capId := "cap-a", translated := "hola", producedForProvider := "api",
    producedForTarget := "es" }

/-- An API-provider pipeline state with a populated Spanish cache (used by
the C5 counterexample and witness). -/
def apiEsState : TransState :=
  { gen := 3, provider := "api", target := "es", cache := [esEntry],
    translatedPartialText := "", pending := [], jobs := [] }

/-- Target language "fr" as a named constant (used by the C5
counterexample and witness). -/
def frLang : String := "fr"

/-- A one-caption snapshot carried by a switch (used by the C5
counterexample and witness). -/
def capSnapshot : List (String × String) := [("cap-a", "hello")]

/-- The bulk retranslation run started by an API switch to "fr" at
generation 4 (used by the C5 witness). -/
def apiFrJob : BulkJob :=
  { gen := 4, issueProvider := "api", issueTarget := "fr", items := capSnapshot }

/-- The API-provider state right after that switch, with the old Spanish
cache still in place and `apiFrJob` running (used by the C5 witness). -/
def apiAfterFrSwitch : TransState :=
  { gen := 4, provider := "api", target := "fr", cache := [esEntry],
    translatedPartialText := "", pending := [], jobs := [apiFrJob] }

/-- Caption id "cap-a" as a named constant (used by the C5 witness). -/
def capAId : String := "cap-a"

/-- Source text "hello" as a named constant (used by the C5 witness). -/
def helloTxt : String := "hello"

/-- A chrome-only event run: switch to "fr", issue one request, resolve it
(used by the C5 witness). -/
def chromeDemoEvents : List TransEvent :=
  [.configSwitch chromeName frLang capSnapshot,
   .startRequest capAId helloTxt,
   .resolve ⟨1, chromeName, frLang, capAId, helloTxt⟩]

/-! ## Chrome-provider create-translator effect (`viewer-interface.tsx`
lines 445-558)

The dependency array of the effect (line 558) is
`[translationProvider, targetLanguage, sourceLanguage, isTranslatorSupported,
captions]`, so ANY change of the caption list re-runs it.  Its body destroys
the existing translator, resets error/progress/caches, and — when the target
is not "none", the API is supported and the pair is available — creates a
fresh translator and re-translates the whole current caption list
(`translateExistingCaptions`, lines 658-677). -/

/-- The React state the Chrome-provider translator effect reads and
writes. -/
structure ChromePipelineState where
  translationProvider : String
  targetLanguage : String
  sourceLanguage : String
  isTranslatorSupported : Bool
  captions : List Caption
  translatorAlive : Bool
  translationError : String
  downloadProgress : Option Nat
  translatedCaptions : List (String × String)
  translatedPartialText : String
deriving DecidableEq, Repr

/-- The dependency tuple of the effect (line 558). -/
def createTranslatorDeps (s : ChromePipelineState) :
    String × String × String × Bool × List Caption :=
  (s.translationProvider, s.targetLanguage, s.sourceLanguage,
    s.isTranslatorSupported, s.captions)

/-- The destroy-and-reset prefix of the effect body (lines 454-464):
`translatorRef.current.destroy()` plus the four state resets. -/
def createTranslatorReset (s : ChromePipelineState) : ChromePipelineState :=
  { s with translatorAlive := false, translationError := "",
           downloadProgress := none, translatedCaptions := [],
           translatedPartialText := "" }

/-- The error message template of lines 490-491 (with the code fallback of
the `LANGUAGES` name lookup). -/
def unsupportedPairMessage (sourceLang targetLang : String) : String :=
  sourceLang ++ " → " ++ targetLang ++
    " is not supported by the built-in translator. Try selecting English or another target language."

/-- One complete, un-aborted run of `createTranslator` (lines 446-547):
early return unless the provider is "chrome"; destroy and reset; return if
target is "none" or the Translator API is unsupported; error out if the
language pair is unavailable; otherwise install a fresh translator and
re-translate every caption in the current list.  `avail` is the
`Translator.availability` capability (true iff not "no"), `tr src tgt text`
the `translate` of the created translator. -/
def createTranslatorRun (avail : String → String → Bool)
    (tr : String → String → String → String) (s : ChromePipelineState) :
    ChromePipelineState :=
  if s.translationProvider != "chrome" then s
  else
    let s1 := createTranslatorReset s
    if s1.targetLanguage == "none" || !s1.isTranslatorSupported then s1
    else if !(avail s1.sourceLanguage s1.targetLanguage) then
      { s1 with translationError :=
          unsupportedPairMessage s1.sourceLanguage s1.targetLanguage }
    else
      { s1 with translatorAlive := true,
                translatedCaptions := s1.captions.map
                  (fun c => (c.id, tr s1.sourceLanguage s1.targetLanguage c.text)) }

/-- The caption-list update the INSERT handler performs on this state
(dedup-by-id append, lines 266-270). -/
def pipelineIngestFinal (s : ChromePipelineState) (c : Caption) :
    ChromePipelineState :=
  { s with captions := if s.captions.any (fun p => p.id == c.id) then s.captions
      else s.captions ++ [c] }

/-- A populated pipeline state used by the C10 witness. -/
def chromeStateEs : ChromePipelineState :=
  { translationProvider := "chrome", targetLanguage := "es",
    sourceLanguage := "en", isTranslatorSupported := true,
    captions := [capSeq0], translatorAlive := true, translationError := "",
    downloadProgress := none, translatedCaptions := [("cap-a", "hola")],
    translatedPartialText := "algo" }

/-- A concrete stand-in translator factory (used by the C10 witness). -/
def tagSrcTgt : String → String → String → String :=
  fun _ tgt txt => txt ++ "@" ++ tgt

/-- An always-available language pair capability (used by the C10
witness). -/
def alwaysAvailable : String → String → Bool :=
  fun _ _ => true

/-! ## Theorems -/

/-- Appending a caption whose sequence number dominates every element of a
sorted list keeps the list sorted. -/
theorem sortedBySeq_append_singleton (l : List Caption) (c : Caption)
    (hs : sortedBySeq l = true)
    (hmax : ∀ p ∈ l, p.sequence_number ≤ c.sequence_number) :
    sortedBySeq (l ++ [c]) = true := by
  induction l with
  | nil => simp [sortedBySeq]
  | cons a rest ih =>
    cases rest with
    | nil =>
      simp only [List.cons_append, List.nil_append, sortedBySeq, Bool.and_eq_true,
        decide_eq_true_eq]
      exact ⟨hmax a (by simp), trivial⟩
    | cons b rest2 =>
      simp only [sortedBySeq, Bool.and_eq_true, decide_eq_true_eq] at hs
      have htail := ih hs.2 (fun p hp => hmax p (List.mem_cons_of_mem a hp))
      simp only [List.cons_append, sortedBySeq, Bool.and_eq_true, decide_eq_true_eq]
      exact ⟨hs.1, by simpa [List.cons_append, sortedBySeq] using htail⟩

/-- C1 (counterexample): two finals with distinct ids and distinct sequence
numbers delivered out of sequence order (sequence 1 first, then sequence 0)
leave `currentView` unsorted — the INSERT handler appends in arrival order
and never sorts. -/
theorem C1_counterexample :
    sortedBySeq (currentView
      (ingestFinal (ingestFinal (initViewerState 0) capSeq1 3) capSeq0 4)).1 = false := by
  decide

/-- C1 (amended): `ingestFinal` appends in arrival order, so the ordered
list stays sorted ascending by `sequence_number` only when each delivered
final has a sequence number at least that of every caption already present;
out-of-order arrival breaks sortedness. -/
theorem C1_sorted_when_in_order (s : ViewerState) (c : Caption) (now : Nat)
    (hs : sortedBySeq s.captions = true)
    (hmax : ∀ p ∈ s.captions, p.sequence_number ≤ c.sequence_number) :
    sortedBySeq (ingestFinal s c now).captions = true := by
  unfold ingestFinal
  by_cases hdup : s.captions.any (fun p => p.id == c.id) = true
  · simpa [hdup] using hs
  · simp only [Bool.not_eq_true] at hdup
    simpa [hdup] using sortedBySeq_append_singleton s.captions c hs hmax

/-- Witness for `C1_sorted_when_in_order` at a concrete in-order delivery. -/
theorem C1_sorted_when_in_order_witness :
    sortedBySeq (ingestFinal ⟨[capSeq0], "", "en", 0⟩ capSeq1 5).captions = true :=
  C1_sorted_when_in_order ⟨[capSeq0], "", "en", 0⟩ capSeq1 5 (by decide) (by decide)

/-- C2 (counterexample): an empty partial delivery does change
`lastActivityAt` — the broadcast handler bumps `lastActivityAtRef`
unconditionally before looking at the payload text. -/
theorem C2_counterexample :
    (ingestPartial (initViewerState 0) "" none 5).lastActivityAt ≠
      (initViewerState 0).lastActivityAt := by
  decide

/-- C2 (amended): every partial delivery, empty text included, resets
`lastActivityAt` to the delivery time. -/
theorem C2_every_partial_resets_activity (s : ViewerState) (text : String)
    (lc : Option String) (now : Nat) :
    (ingestPartial s text lc now).lastActivityAt = now := rfl

/-- C3: `ingestFinal` is idempotent on caption id — when the id of the
delivered caption is already present (its text may differ), the ordered
list (and hence its length) is unchanged. -/
theorem C3_ingestFinal_idempotent (s : ViewerState) (c : Caption) (now : Nat)
    (hdup : s.captions.any (fun p => p.id == c.id) = true) :
    (ingestFinal s c now).captions = s.captions ∧
      (ingestFinal s c now).captions.length = s.captions.length := by
  constructor
  · simp [ingestFinal, hdup]
  · simp [ingestFinal, hdup]

/-- Witness for `C3_ingestFinal_idempotent` at a concrete redelivery. -/
theorem C3_ingestFinal_idempotent_witness :
    (ingestFinal ⟨[capSeq0], "p", "en", 0⟩ capSeq0Redelivered 9).captions = [capSeq0] ∧
      (ingestFinal ⟨[capSeq0], "p", "en", 0⟩ capSeq0Redelivered 9).captions.length =
        [capSeq0].length :=
  C3_ingestFinal_idempotent ⟨[capSeq0], "p", "en", 0⟩ capSeq0Redelivered 9 (by decide)

/-- C4: a final whose id is new supersedes any non-empty in-flight partial —
after `ingestFinal` the partial in `currentView` is the empty string (the
handler runs `setPartialText("")` unconditionally). -/
theorem C4_final_supersedes_partial (s : ViewerState) (c : Caption) (now : Nat) :
    s.partialText ≠ "" →
    s.captions.any (fun p => p.id == c.id) = false →
    (currentView (ingestFinal s c now)).2 = "" :=
  fun _ _ => rfl

/-- Witness for `C4_final_supersedes_partial`: partial "hello", final with
different text. -/
theorem C4_final_supersedes_partial_witness :
    (currentView (ingestFinal ⟨[capSeq0], "hello", "en", 0⟩ capSeq1 7)).2 = "" :=
  C4_final_supersedes_partial ⟨[capSeq0], "hello", "en", 0⟩ capSeq1 7 (by decide) (by decide)

/-- C9: a duplicate final (id already present) still clears the partial —
`setPartialText("")` runs before the dedup check, so the side effect is not
conditioned on a successful insert — while the list itself is unchanged. -/
theorem C9_duplicate_final_clears_partial (s : ViewerState) (c : Caption) (now : Nat)
    (hdup : s.captions.any (fun p => p.id == c.id) = true) :
    (ingestFinal s c now).partialText = "" ∧
      (ingestFinal s c now).captions = s.captions :=
  ⟨rfl, by simp [ingestFinal, hdup]⟩

/-- Witness for `C9_duplicate_final_clears_partial` at a concrete
duplicate. -/
theorem C9_duplicate_final_clears_partial_witness :
    (ingestFinal ⟨[capSeq1], "in flight", "en", 2⟩ capSeq1Redelivered 8).partialText = "" ∧
      (ingestFinal ⟨[capSeq1], "in flight", "en", 2⟩ capSeq1Redelivered 8).captions = [capSeq1] :=
  C9_duplicate_final_clears_partial ⟨[capSeq1], "in flight", "en", 2⟩ capSeq1Redelivered 8
    (by decide)

/-- C7: the idle bands — elapsed < 15 s is ACTIVE, 15 s ≤ elapsed < 20 s is
IDLE_RECENT (notice visible), elapsed ≥ 20 s is IDLE_QUIET (notice hidden) —
and a single non-empty ingestion (a non-empty partial, or any final) at any
point resets the elapsed time so the band is ACTIVE again. -/
theorem C7_idle_bands (elapsed : Nat) (s : ViewerState) (text : String)
    (lc : Option String) (c : Caption) (now : Nat) :
    text ≠ "" →
    (elapsed < 15000 → idleBand elapsed = .ACTIVE) ∧
    (15000 ≤ elapsed → elapsed < 20000 → idleBand elapsed = .IDLE_RECENT) ∧
    (20000 ≤ elapsed → idleBand elapsed = .IDLE_QUIET) ∧
    idleBand (elapsedAt (ingestPartial s text lc now) now) = .ACTIVE ∧
    idleBand (elapsedAt (ingestFinal s c now) now) = .ACTIVE := by
  intro _
  refine ⟨?_, ?_, ?_, ?_, ?_⟩
  · intro h
    simp [idleBand, showIdleMessage, IDLE_THRESHOLD_MS, Nat.not_le.mpr h]
  · intro h1 h2
    simp [idleBand, showIdleMessage, idleMessageVisible, IDLE_THRESHOLD_MS,
      IDLE_MESSAGE_DURATION_MS, h1, h2]
  · intro h
    have h1 : IDLE_THRESHOLD_MS ≤ elapsed := by unfold IDLE_THRESHOLD_MS; omega
    have h2 : ¬ elapsed < IDLE_THRESHOLD_MS + IDLE_MESSAGE_DURATION_MS := by
      unfold IDLE_THRESHOLD_MS IDLE_MESSAGE_DURATION_MS; omega
    simp [idleBand, showIdleMessage, idleMessageVisible, h1, h2]
  · simp [idleBand, showIdleMessage, elapsedAt, ingestPartial, IDLE_THRESHOLD_MS]
  · simp [idleBand, showIdleMessage, elapsedAt, ingestFinal, IDLE_THRESHOLD_MS]

/-- Witness for `C7_idle_bands`: the three bands at 14 999 ms, 16 000 ms and
21 000 ms, and a reset by a non-empty partial ingestion. -/
theorem C7_idle_bands_witness :
    idleBand 14999 = .ACTIVE ∧ idleBand 16000 = .IDLE_RECENT ∧
      idleBand 21000 = .IDLE_QUIET ∧
      idleBand (elapsedAt (ingestPartial (initViewerState 0) txtA none 30000) 30000) = .ACTIVE :=
  ⟨(C7_idle_bands 14999 (initViewerState 0) txtA none capSeq0 30000 (by decide)).1 (by decide),
   ((C7_idle_bands 16000 (initViewerState 0) txtA none capSeq0 30000 (by decide)).2.1
     (by decide) (by decide)),
   ((C7_idle_bands 21000 (initViewerState 0) txtA none capSeq0 30000 (by decide)).2.2.1
     (by decide)),
   (C7_idle_bands 14999 (initViewerState 0) txtA none capSeq0 30000 (by decide)).2.2.2.1⟩

/-- Core induction: running a burst trace from a state whose pending timer
has deadline `ft` fires nothing (ticks come before the deadline, updates
supersede the schedule) and leaves the timer of the final update pending. -/
theorem runT_burstTrace (tr : String → String) (evs : List (Nat × DEvent))
    (ft : Nat) (x : String) (s : DebounceState)
    (hp : s.pending = some ⟨ft, x⟩) (htrace : burstTrace ft evs = true) :
    (runT tr s evs).calls = s.calls ∧
      (runT tr s evs).pending =
        some ⟨(finalTimer ft x evs).1, (finalTimer ft x evs).2⟩ := by
  induction evs generalizing ft x s with
  | nil => exact ⟨rfl, by simp [runT, finalTimer, hp]⟩
  | cons ev rest ih =>
    obtain ⟨t, e⟩ := ev
    cases e with
    | timerTick =>
      simp only [burstTrace, Bool.and_eq_true, decide_eq_true_eq] at htrace
      have hnofire : fireTimer s t tr = s := by
        unfold fireTimer
        rw [hp]
        simp [Nat.not_le.mpr htrace.1]
      simp only [runT, finalTimer, hnofire]
      exact ih ft x s hp htrace.2
    | update y =>
      simp only [burstTrace, Bool.and_eq_true, Bool.not_eq_true', beq_eq_false_iff_ne,
        decide_eq_true_eq] at htrace
      have hupd : partialUpdate s true y t =
          { s with pending := some ⟨t + PARTIAL_DEBOUNCE_MS, y⟩ } := by
        unfold partialUpdate
        simp [htrace.1.2]
      simp only [runT, finalTimer, hupd]
      exact ih (t + PARTIAL_DEBOUNCE_MS) y _ rfl htrace.2

/-- C8: for every burst of partial updates arriving closer together than the
500 ms debounce window (each event strictly before the deadline pending at
its time), with event-loop checks interleaved arbitrarily, no translation
call fires during the burst, and once the event loop passes the deadline of
the last update exactly one call fires — for the latest text of the burst;
each update supersedes the previously pending schedule with its own. -/
theorem C8_debounce (tr : String → String) (s : DebounceState)
    (t : Nat) (x : String) (evs : List (Nat × DEvent)) (tf : Nat)
    (hx : x ≠ "") (htrace : burstTrace (t + PARTIAL_DEBOUNCE_MS) evs = true)
    (hfire : (finalTimer (t + PARTIAL_DEBOUNCE_MS) x evs).1 ≤ tf) :
    (runT tr (partialUpdate s true x t) evs).calls = s.calls ∧
      (fireTimer (runT tr (partialUpdate s true x t) evs) tf tr).calls =
        s.calls ++ [(finalTimer (t + PARTIAL_DEBOUNCE_MS) x evs).2] ∧
      (partialUpdate s true x t).pending = some ⟨t + PARTIAL_DEBOUNCE_MS, x⟩ := by
  have hupd : partialUpdate s true x t =
      { s with pending := some ⟨t + PARTIAL_DEBOUNCE_MS, x⟩ } := by
    unfold partialUpdate
    simp [hx]
  have hcore := runT_burstTrace tr evs (t + PARTIAL_DEBOUNCE_MS) x
    (partialUpdate s true x t) (by rw [hupd]) htrace
  refine ⟨by rw [hcore.1, hupd], ?_, by rw [hupd]⟩
  unfold fireTimer
  rw [hcore.2]
  simp only [hfire, if_true]
  rw [hcore.1, hupd]

/-- Witness for `C8_debounce`: Scenario C — updates "a", "ab", "abc" 100 ms
apart, event-loop checks in between, a final check at 700 ms: exactly one
call, for "abc". -/
theorem C8_debounce_witness :
    (runT frSuffix (partialUpdate emptyDebounce true txtA 0) scenarioCEvents).calls = [] ∧
      (fireTimer (runT frSuffix (partialUpdate emptyDebounce true txtA 0) scenarioCEvents)
          700 frSuffix).calls = [] ++ [txtABC] ∧
      (partialUpdate emptyDebounce true txtA 0).pending =
        some ⟨0 + PARTIAL_DEBOUNCE_MS, txtA⟩ :=
  C8_debounce frSuffix emptyDebounce 0 txtA scenarioCEvents 700
    (by decide) (by decide) (by decide)

/-- The pending-request and bulk-job invariants are preserved by every
transition, and cache freshness by every transition that is not a switch
away from the Chrome provider (a Chrome switch clears the cache; commits
are guarded by the generation). -/
theorem transStep_preserves (tr : String → String → String) (s : TransState)
    (e : TransEvent) (hc : cacheFresh s = true) (hp : pendingOk s = true)
    (hj : jobsOk s = true) (he : chromeSwitchOnly e = true) :
    cacheFresh (transStep tr s e) = true ∧ pendingOk (transStep tr s e) = true ∧
      jobsOk (transStep tr s e) = true := by
  cases e with
  | configSwitch p t snap =>
    have hpc : (p == chromeName) = true := by simpa [chromeSwitchOnly] using he
    refine ⟨?_, ?_, ?_⟩
    · simp [transStep, cacheFresh, hpc]
    · simp only [transStep, pendingOk, List.all_eq_true] at hp ⊢
      intro r hr
      have := hp r hr
      simp only [Bool.and_eq_true, Bool.or_eq_true, Bool.not_eq_true', beq_eq_false_iff_ne,
        decide_eq_true_eq, beq_iff_eq] at this ⊢
      exact ⟨by omega, Or.inl (by omega)⟩
    · simp only [transStep, hpc, Bool.true_or, if_true, jobsOk, List.all_eq_true]
      intro j hjm
      have := (List.all_eq_true.mp hj) j hjm
      simp only [Bool.and_eq_true, Bool.or_eq_true, Bool.not_eq_true', beq_eq_false_iff_ne,
        decide_eq_true_eq, beq_iff_eq] at this ⊢
      exact ⟨by omega, Or.inl (by omega)⟩
  | startRequest capId sourceText =>
    refine ⟨by simpa [transStep, cacheFresh] using hc, ?_,
      by simpa [transStep, jobsOk] using hj⟩
    simp only [transStep, pendingOk, List.all_eq_true] at hp ⊢
    intro r hr
    rcases List.mem_cons.mp hr with hnew | hold
    · subst hnew
      simp
    · exact hp r hold
  | resolve r =>
    by_cases hmem : r ∈ s.pending
    · by_cases hgen : r.gen = s.gen
      · have hcfg := by
          have := (List.all_eq_true.mp hp) r hmem
          simpa only [Bool.and_eq_true, Bool.or_eq_true, Bool.not_eq_true',
            beq_eq_false_iff_ne, decide_eq_true_eq, beq_iff_eq, hgen,
            ne_eq, not_true_eq_false, false_or] using this
        refine ⟨?_, ?_, by simpa [transStep, if_pos hmem, if_pos hgen, jobsOk] using hj⟩
        · simp only [transStep, if_pos hmem, if_pos hgen, cacheFresh, List.all_cons,
            Bool.and_eq_true, beq_iff_eq]
          exact ⟨⟨hcfg.2.1, hcfg.2.2⟩, by simpa [cacheFresh] using hc⟩
        · simp only [transStep, if_pos hmem, if_pos hgen, pendingOk, List.all_eq_true]
          intro q hq
          exact (List.all_eq_true.mp hp) q (List.mem_of_mem_erase hq)
      · refine ⟨by simpa [transStep, if_pos hmem, if_neg hgen, cacheFresh] using hc, ?_,
          by simpa [transStep, if_pos hmem, if_neg hgen, jobsOk] using hj⟩
        simp only [transStep, if_pos hmem, if_neg hgen, pendingOk, List.all_eq_true]
        intro q hq
        exact (List.all_eq_true.mp hp) q (List.mem_of_mem_erase hq)
    · exact ⟨by simpa [transStep, if_neg hmem] using hc,
        by simpa [transStep, if_neg hmem] using hp,
        by simpa [transStep, if_neg hmem] using hj⟩
  | bulkComplete j =>
    by_cases hmem : j ∈ s.jobs
    · by_cases hgen : j.gen = s.gen
      · have hcfg := by
          have := (List.all_eq_true.mp hj) j hmem
          simpa only [Bool.and_eq_true, Bool.or_eq_true, Bool.not_eq_true',
            beq_eq_false_iff_ne, decide_eq_true_eq, beq_iff_eq, hgen,
            ne_eq, not_true_eq_false, false_or] using this
        refine ⟨?_, by simpa [transStep, if_pos hmem, if_pos hgen, pendingOk] using hp, ?_⟩
        · simp only [transStep, if_pos hmem, if_pos hgen, cacheFresh, List.all_eq_true]
          intro en hen
          obtain ⟨it, hit, rfl⟩ := List.mem_map.mp hen
          simp [hcfg.2.1, hcfg.2.2]
        · simp only [transStep, if_pos hmem, if_pos hgen, jobsOk, List.all_eq_true]
          intro q hq
          exact (List.all_eq_true.mp hj) q (List.mem_of_mem_erase hq)
      · refine ⟨by simpa [transStep, if_pos hmem, if_neg hgen, cacheFresh] using hc,
          by simpa [transStep, if_pos hmem, if_neg hgen, pendingOk] using hp, ?_⟩
        simp only [transStep, if_pos hmem, if_neg hgen, jobsOk, List.all_eq_true]
        intro q hq
        exact (List.all_eq_true.mp hj) q (List.mem_of_mem_erase hq)
    · exact ⟨by simpa [transStep, if_neg hmem] using hc,
        by simpa [transStep, if_neg hmem] using hp,
        by simpa [transStep, if_neg hmem] using hj⟩

/-- All three invariants hold along every run whose switches stay on the
Chrome provider. -/
theorem transRun_preserves (tr : String → String → String) (evs : List TransEvent)
    (s : TransState) (hc : cacheFresh s = true) (hp : pendingOk s = true)
    (hj : jobsOk s = true) (hall : chromeOnlySwitches evs = true) :
    cacheFresh (transRun tr s evs) = true ∧ pendingOk (transRun tr s evs) = true ∧
      jobsOk (transRun tr s evs) = true := by
  induction evs generalizing s with
  | nil => exact ⟨hc, hp, hj⟩
  | cons e rest ih =>
    simp only [chromeOnlySwitches, List.all_cons, Bool.and_eq_true] at hall
    have hstep := transStep_preserves tr s e hc hp hj hall.1
    exact ih (transStep tr s e) hstep.1 hstep.2.1 hstep.2.2 hall.2

/-- C5 (counterexample): for the remote-API provider, a switch of the
target language from "es" to "fr" does NOT empty the cache — the effect
body keeps the old map until the full retranslation finishes — so the old
Spanish entry is still in the cache (and hence returnable for its caption
id) under the new target: the claim, stated at this input as "cache empty
immediately and every cached entry produced under the current
configuration", is false. -/
theorem C5_counterexample :
    ¬ ((transStep tagTarget apiEsState (.configSwitch apiName frLang capSnapshot)).cache
        = [] ∧
      cacheFresh (transStep tagTarget apiEsState
        (.configSwitch apiName frLang capSnapshot)) = true) := by
  decide

/-- C5 (amended): the invalidation discipline is per-provider.  A switch
selecting the Chrome (on-device) provider empties the cache and the
translated partial immediately, and along any run from the initial state
whose switches stay on the Chrome provider every cached translation was
produced under the current configuration — no old-target text is ever
returned under the new target.  A switch staying on the API provider with a
non-"none" target clears only the translated partial and keeps the
old-target cache; the cache is replaced wholesale (with translations under
the new target) only when the started full retranslation completes
uncancelled. -/
theorem C5_cache_invalidation_by_provider (tr : String → String → String)
    (s : TransState) (t : String) (snap : List (String × String))
    (evs : List TransEvent) (s2 : TransState) (j : BulkJob) :
    (transStep tr s (.configSwitch chromeName t snap)).cache = [] ∧
      (transStep tr s (.configSwitch chromeName t snap)).translatedPartialText = "" ∧
      (t ≠ "none" →
        (transStep tr s (.configSwitch apiName t snap)).cache = s.cache ∧
          (transStep tr s (.configSwitch apiName t snap)).translatedPartialText = "") ∧
      (chromeOnlySwitches evs = true →
        cacheFresh (transRun tr initTransState evs) = true) ∧
      (j ∈ s2.jobs → j.gen = s2.gen →
        (transStep tr s2 (.bulkComplete j)).cache = j.items.map (fun it =>
          ⟨it.1, tr j.issueTarget it.2, j.issueProvider, j.issueTarget⟩)) := by
  refine ⟨by simp [transStep], rfl, ?_, ?_, ?_⟩
  · intro ht
    have hapi : (apiName == chromeName) = false := by decide
    have htn : (t == "none") = false := beq_eq_false_iff_ne.mpr ht
    exact ⟨by simp [transStep, hapi, htn], rfl⟩
  · intro hall
    exact (transRun_preserves tr evs initTransState (by decide) (by decide)
      (by decide) hall).1
  · intro hmem hgen
    simp [transStep, hmem, hgen]

/-- Witness for `C5_cache_invalidation_by_provider`: a Chrome switch from
the populated API state clears everything; the API switch to "fr" keeps the
Spanish cache; a chrome-only demo run stays fresh; and the completing "fr"
bulk run replaces the map with "fr" translations. -/
theorem C5_cache_invalidation_by_provider_witness :
    (transStep tagTarget apiEsState
        (.configSwitch chromeName frLang capSnapshot)).cache = [] ∧
      (transStep tagTarget apiEsState
          (.configSwitch chromeName frLang capSnapshot)).translatedPartialText = "" ∧
      ((transStep tagTarget apiEsState
          (.configSwitch apiName frLang capSnapshot)).cache = apiEsState.cache ∧
        (transStep tagTarget apiEsState
            (.configSwitch apiName frLang capSnapshot)).translatedPartialText = "") ∧
      cacheFresh (transRun tagTarget initTransState chromeDemoEvents) = true ∧
      (transStep tagTarget apiAfterFrSwitch (.bulkComplete apiFrJob)).cache =
        apiFrJob.items.map (fun it =>
          ⟨it.1, tagTarget apiFrJob.issueTarget it.2, apiFrJob.issueProvider,
            apiFrJob.issueTarget⟩) :=
  ⟨(C5_cache_invalidation_by_provider tagTarget apiEsState frLang capSnapshot
      chromeDemoEvents apiAfterFrSwitch apiFrJob).1,
   (C5_cache_invalidation_by_provider tagTarget apiEsState frLang capSnapshot
      chromeDemoEvents apiAfterFrSwitch apiFrJob).2.1,
   (C5_cache_invalidation_by_provider tagTarget apiEsState frLang capSnapshot
      chromeDemoEvents apiAfterFrSwitch apiFrJob).2.2.1 (by decide),
   (C5_cache_invalidation_by_provider tagTarget apiEsState frLang capSnapshot
      chromeDemoEvents apiAfterFrSwitch apiFrJob).2.2.2.1 (by decide),
   (C5_cache_invalidation_by_provider tagTarget apiEsState frLang capSnapshot
      chromeDemoEvents apiAfterFrSwitch apiFrJob).2.2.2.2 (by decide) (by decide)⟩

/-- C6: when a request issued under a previous configuration (its generation
differs from the current one because a switch intervened) resolves, its
result is discarded — the cache and the translated partial are unchanged, so
it never appears in the consumer-visible view. -/
theorem C6_stale_result_discarded (tr : String → String → String) (s : TransState)
    (r : TransReq) (hstale : r.gen ≠ s.gen) :
    (transStep tr s (.resolve r)).cache = s.cache ∧
      (transStep tr s (.resolve r)).translatedPartialText = s.translatedPartialText := by
  by_cases hmem : r ∈ s.pending
  · constructor
    · simp [transStep, if_pos hmem, if_neg hstale]
    · simp [transStep, if_pos hmem, if_neg hstale]
  · constructor
    · simp [transStep, if_neg hmem]
    · simp [transStep, if_neg hmem]

/-- Witness for `C6_stale_result_discarded`: the "fr" request resolving
after the switch to "de" changes nothing. -/
theorem C6_stale_result_discarded_witness :
    (transStep tagTarget afterSwitchToDe
        (.resolve slowFrRequest)).cache = afterSwitchToDe.cache ∧
      (transStep tagTarget afterSwitchToDe
          (.resolve slowFrRequest)).translatedPartialText =
        afterSwitchToDe.translatedPartialText :=
  C6_stale_result_discarded tagTarget afterSwitchToDe slowFrRequest (by decide)

/-- C10: under the Chrome provider with a non-"none" target, ingesting a
single new final changes the dependency tuple of the effect (so the effect
re-runs), the re-run destroys the translator and empties the cache and the
translated partial, the final cache is a from-scratch translation of the
full updated list, and nothing of the prior cache survives (the run result
is independent of the previous `translatedCaptions` /
`translatedPartialText`). -/
theorem C10_ingest_resets_chrome_pipeline (avail : String → String → Bool)
    (tr : String → String → String → String) (s : ChromePipelineState) (c : Caption)
    (hprov : s.translationProvider = "chrome")
    (htarget : s.targetLanguage ≠ "none")
    (hsupp : s.isTranslatorSupported = true)
    (havail : avail s.sourceLanguage s.targetLanguage = true)
    (hnew : s.captions.any (fun p => p.id == c.id) = false) :
    createTranslatorDeps (pipelineIngestFinal s c) ≠ createTranslatorDeps s ∧
      (createTranslatorReset (pipelineIngestFinal s c)).translatorAlive = false ∧
      (createTranslatorReset (pipelineIngestFinal s c)).translatedCaptions = [] ∧
      (createTranslatorReset (pipelineIngestFinal s c)).translatedPartialText = "" ∧
      (createTranslatorRun avail tr (pipelineIngestFinal s c)).translatedCaptions =
        (s.captions ++ [c]).map
          (fun p => (p.id, tr s.sourceLanguage s.targetLanguage p.text)) ∧
      (∀ cacheA cacheB partA partB,
        createTranslatorRun avail tr
          { pipelineIngestFinal s c with
            translatedCaptions := cacheA, translatedPartialText := partA } =
        createTranslatorRun avail tr
          { pipelineIngestFinal s c with
            translatedCaptions := cacheB, translatedPartialText := partB }) := by
  have hcap : (pipelineIngestFinal s c).captions = s.captions ++ [c] := by
    simp [pipelineIngestFinal, hnew]
  have ht : (s.targetLanguage == "none") = false := beq_eq_false_iff_ne.mpr htarget
  refine ⟨?_, rfl, rfl, rfl, ?_, ?_⟩
  · intro h
    have hlists := congrArg (fun d => d.2.2.2.2) h
    simp only [createTranslatorDeps] at hlists
    rw [hcap] at hlists
    have := congrArg List.length hlists
    simp at this
  · simp [createTranslatorRun, createTranslatorReset, pipelineIngestFinal, hnew,
      hprov, ht, hsupp, havail]
  · intro cacheA cacheB partA partB
    simp [createTranslatorRun, createTranslatorReset, pipelineIngestFinal, hnew,
      hprov, ht, hsupp, havail]

/-- Witness for `C10_ingest_resets_chrome_pipeline` at a concrete ingest. -/
theorem C10_ingest_resets_chrome_pipeline_witness :
    createTranslatorDeps (pipelineIngestFinal chromeStateEs capSeq1) ≠
        createTranslatorDeps chromeStateEs ∧
      (createTranslatorReset (pipelineIngestFinal chromeStateEs capSeq1)).translatorAlive
          = false ∧
      (createTranslatorReset (pipelineIngestFinal chromeStateEs capSeq1)).translatedCaptions
          = [] ∧
      (createTranslatorReset
          (pipelineIngestFinal chromeStateEs capSeq1)).translatedPartialText = "" ∧
      (createTranslatorRun alwaysAvailable tagSrcTgt
          (pipelineIngestFinal chromeStateEs capSeq1)).translatedCaptions =
        ([capSeq0] ++ [capSeq1]).map
          (fun p => (p.id, tagSrcTgt chromeStateEs.sourceLanguage
            chromeStateEs.targetLanguage p.text)) ∧
      (∀ cacheA cacheB partA partB,
        createTranslatorRun alwaysAvailable tagSrcTgt
          { pipelineIngestFinal chromeStateEs capSeq1 with
            translatedCaptions := cacheA, translatedPartialText := partA } =
        createTranslatorRun alwaysAvailable tagSrcTgt
          { pipelineIngestFinal chromeStateEs capSeq1 with
            translatedCaptions := cacheB, translatedPartialText := partB }) :=
  C10_ingest_resets_chrome_pipeline alwaysAvailable tagSrcTgt
    chromeStateEs capSeq1 (by decide) (by decide) (by decide) (by decide) (by decide)
